import Mathlib

/-!
Shallow embedding of the camera-kit-app core: the session lifecycle
(startCamera / initCamera), the lens application protocol (applyLens /
applyLensData), the particle physics of the compositor loop (animate /
animateComposite), the recording pipeline (toggleRecording / startRecording /
stopRecording) and the persistence path (saveToDevice).

Numeric JavaScript values are modelled as rationals; `Math.random()` draws and
`Math.sin` values are passed in as explicit oracle inputs.  Asynchronous
operations are modelled by explicit event/step interleavings, which is faithful
because the host is single-threaded and cooperative.
-/

namespace CameraKitApp

/-! ## Particle physics engine (App.tsx `animate`, part_000 `animateComposite`) -/

/-- One particle of the overlay, mirroring the `Particle` interface of
App.tsx / part_000 (x, y, depth z, speed, three rotation axes with speeds,
emoji, size, opacity, life, maxLife, wind offsets). -/
structure Particle where
  x : ℚ
  y : ℚ
  z : ℚ
  speed : ℚ
  rotation : ℚ
  rotationSpeed : ℚ
  rotationX : ℚ
  rotationY : ℚ
  rotationSpeedX : ℚ
  rotationSpeedY : ℚ
  emoji : String
  size : ℚ
  opacity : ℚ
  life : ℚ
  maxLife : ℚ
  windOffsetX : ℚ
  windOffsetY : ℚ
  deriving DecidableEq, Repr

/-- The `Math.random()` draws consumed by one recycle of a particle inside
`animateComposite` (new x, new depth z, and the three re-randomized rotation
axes), each a rational in [0, 1). -/
structure RandDraw where
  rx : ℚ
  rz : ℚ
  rr : ℚ
  rrx : ℚ
  rry : ℚ
  deriving DecidableEq, Repr

/-- The opacity envelope computed each tick (App.tsx line 264, part_000 lines
263-269): ramp up over the first 10% of life, hold at 1, ramp down over the
final 10%. -/
def opacityEnvelope (lifeRatio : ℚ) : ℚ :=
  if lifeRatio < 1/10 then lifeRatio * 10
  else if lifeRatio > 9/10 then (1 - lifeRatio) * 10
  else 1

/-- One per-particle tick of part_000's `animateComposite` (lines 257-334):
life += 0.016, opacity envelope, exponential wind smoothing, gravity 0.3,
turbulence, rotation updates, then the recycle check `y > height + 50 ||
life >= maxLife` which resets life to 0 and repositions off-screen.
`sinVal` stands for `Math.sin(time + particle.x * 0.01)` and `windX`, `windY`
for the global wind terms; `rnd` supplies the recycle's random draws. -/
def animateCompositeTick (width height windX windY sinVal : ℚ) (rnd : RandDraw)
    (p : Particle) : Particle :=
  let life := p.life + 2/125
  let lifeRatio := life / p.maxLife
  let opacity := opacityEnvelope lifeRatio
  let turbulence := sinVal * 2
  let windOffsetX := p.windOffsetX + (windX - p.windOffsetX) * (1/20)
  let windOffsetY := p.windOffsetY + (windY - p.windOffsetY) * (1/20)
  let y := p.y + p.speed + 3/10
  let x := p.x + windOffsetX * (1/10) + turbulence
  let rotation := p.rotation + p.rotationSpeed
  let rotationX := p.rotationX + p.rotationSpeedX
  let rotationY := p.rotationY + p.rotationSpeedY
  if y > height + 50 ∨ life ≥ p.maxLife then
    { p with
      y := -50, x := rnd.rx * width, z := rnd.rz, life := 0,
      rotation := rnd.rr * 360, rotationX := rnd.rrx * 360,
      rotationY := rnd.rry * 360,
      opacity := opacity, windOffsetX := windOffsetX, windOffsetY := windOffsetY }
  else
    { p with
      y := y, x := x, life := life,
      rotation := rotation, rotationX := rotationX, rotationY := rotationY,
      opacity := opacity, windOffsetX := windOffsetX, windOffsetY := windOffsetY }

/-- One per-particle tick of App.tsx's `animate` (lines 258-267): life += 0.016,
recycle on `life >= maxLife` only (reset life, y := -50, random x), then the
opacity envelope, fall with gravity 0.3, sway, and spin.  `sinVal` stands for
`Math.sin(time + p.x * 0.01)` and `rx` for the recycle's `Math.random()`. -/
def animateTick (width windX sinVal rx : ℚ) (p : Particle) : Particle :=
  let life0 := p.life + 2/125
  let recycled := life0 ≥ p.maxLife
  let life1 := if recycled then 0 else life0
  let y1 := if recycled then -50 else p.y
  let x1 := if recycled then rx * width else p.x
  let lifeRatio := life1 / p.maxLife
  { p with
    life := life1,
    opacity := opacityEnvelope lifeRatio,
    y := y1 + p.speed + 3/10,
    x := x1 + sinVal * 2 + windX * (1/20),
    rotation := p.rotation + p.rotationSpeed }

/-- A symbol/count/speed entry of a guest configuration (`ParticleConfig`). -/
structure ParticleConfig where
  emoji : String
  count : ℕ
  speed : ℚ
  deriving DecidableEq, Repr

/-- A guest identity (`Guest` in App.tsx): id, display name, accent color and
particle configuration. -/
structure Guest where
  id : String
  name : String
  color : String
  particles : List ParticleConfig
  deriving DecidableEq, Repr

/-- The built-in fallback identity `FALLBACK_GUEST` of App.tsx (lines 73-83),
used by the draw loop when no guest has been scanned. -/
def FALLBACK_GUEST : Guest :=
  { id := "fallback"
    name := "Invitado"
    color := "#81c784"
    particles :=
      [⟨"🌸", 12, 1/2⟩, ⟨"🌿", 12, 2/5⟩, ⟨"🌺", 10, 3/5⟩, ⟨"✨", 15, 4/5⟩] }

/-- The `Math.random()` draws consumed when creating one particle in
`initializeParticles`. -/
structure InitRand where
  rx : ℚ
  ry : ℚ
  rz : ℚ
  rs : ℚ
  rr : ℚ
  rrs : ℚ
  rrx : ℚ
  rry : ℚ
  rrsx : ℚ
  rrsy : ℚ
  rsize : ℚ
  rmax : ℚ
  deriving DecidableEq, Repr

/-- One particle as created by App.tsx's `initializeParticles` (lines 124-144). -/
def mkParticle (width height : ℚ) (c : ParticleConfig) (r : InitRand) : Particle :=
  { x := r.rx * width
    y := r.ry * height * 2 - height
    z := r.rz
    speed := c.speed + r.rs * (1/2)
    rotation := r.rr * 360
    rotationSpeed := (r.rrs - 1/2) * 3
    rotationX := r.rrx * 360
    rotationY := r.rry * 360
    rotationSpeedX := (r.rrsx - 1/2) * 2
    rotationSpeedY := (r.rrsy - 1/2) * 2
    emoji := c.emoji
    size := 20 + r.rsize * 30
    opacity := 0
    life := 0
    maxLife := 5 + r.rmax * 5
    windOffsetX := 0
    windOffsetY := 0 }

/-- App.tsx `initializeParticles` (lines 116-147): per config entry, push
`floor(count * densityMultiplier)` particles, where the multiplier is 4 when
lush and 2 otherwise; `rand` supplies the per-particle random draws. -/
def initializeParticles (width height : ℚ) (guest : Guest) (isLush : Bool)
    (rand : ℕ → InitRand) : List Particle :=
  let densityMultiplier : ℕ := if isLush then 4 else 2
  guest.particles.foldr
    (fun c acc =>
      (List.range (c.count * densityMultiplier)).map
        (fun i => mkParticle width height c (rand i)) ++ acc)
    []

/-- The oracle inputs consumed by one iteration of App.tsx's `animate` loop:
per-particle sine values and random draws, plus the global wind term. -/
structure FrameEnv where
  windX : ℚ
  sinVal : ℕ → ℚ
  recycleRand : ℕ → ℚ
  initRand : ℕ → InitRand

/-- One iteration of App.tsx's `animate` loop restricted to the particle pool
(lines 253-278): if the pool is empty, initialize it from the scanned guest or
from `FALLBACK_GUEST` (lush when landing); then tick every particle in place. -/
def animateFrame (width height : ℚ) (guest : Option Guest) (isLanding : Bool)
    (env : FrameEnv) (pool : List Particle) : List Particle :=
  let pool :=
    if pool.length = 0 then
      initializeParticles width height (guest.getD FALLBACK_GUEST) isLanding env.initRand
    else pool
  (List.range pool.length).zip pool |>.map
    (fun ip => animateTick width env.windX (env.sinVal ip.1) (env.recycleRand ip.1) ip.2)

/-- The particle pool after `n` iterations of the `animate` loop starting from
an empty pool. -/
def animateFrames (width height : ℚ) (guest : Option Guest) (isLanding : Bool)
    (envs : ℕ → FrameEnv) : ℕ → List Particle
  | 0 => []
  | n + 1 => animateFrame width height guest isLanding (envs n)
      (animateFrames width height guest isLanding envs n)

/-! ## Session initialization (App.tsx `startCamera`, CameraKitContext `initCamera`) -/

/-- An event of the single-threaded host: another `startCamera`/`initCamera`
invocation arriving, or the in-flight body resuming at its next await point. -/
inductive InitEvent
  | invoke
  | step
  deriving DecidableEq, Repr

/-- The session-manager state: the mounted canvas, the `isInitializingRef`
single-flight flag, the cached `cameraKitRef` and `sessionRef`, the program
counter of the in-flight `startCamera` body (none when no body is running) and
counters of engine bootstraps and `getUserMedia` acquisitions issued. -/
structure SessionState where
  hasCanvas : Bool
  isInitializing : Bool
  hasCameraKit : Bool
  hasSession : Bool
  pc : Option ℕ
  bootstraps : ℕ
  acquisitions : ℕ
  deriving DecidableEq, Repr

/-- The synchronous prologue of `startCamera` (App.tsx lines 162-166,
CameraKitContext lines 171-175): return immediately unless a canvas is mounted
and no initialization is in flight; otherwise raise the flag and start the
body. -/
def startCameraInvoke (σ : SessionState) : SessionState :=
  if ¬ σ.hasCanvas ∨ σ.isInitializing then σ
  else { σ with isInitializing := true, pc := some 0 }

/-- One await-delimited segment of the in-flight `startCamera` body:
pc 0 bootstraps Camera Kit when `cameraKitRef` is empty (App.tsx 170-176),
pc 1 creates the render session when `sessionRef` is empty (178-183),
pc 2 stops the previous tracks and awaits `getUserMedia` (185-197),
pc 3 binds the source, plays, applies the lens and runs the `finally` block
clearing the flag (199-217). -/
def startCameraStep (σ : SessionState) : SessionState :=
  match σ.pc with
  | none => σ
  | some 0 =>
    { σ with
      pc := some 1
      hasCameraKit := true
      bootstraps := if σ.hasCameraKit then σ.bootstraps else σ.bootstraps + 1 }
  | some 1 => { σ with pc := some 2, hasSession := true }
  | some 2 => { σ with pc := some 3, acquisitions := σ.acquisitions + 1 }
  | some _ => { σ with pc := none, isInitializing := false }

/-- Dispatch one host event. -/
def sessionStep (σ : SessionState) : InitEvent → SessionState
  | InitEvent.invoke => startCameraInvoke σ
  | InitEvent.step => startCameraStep σ

/-- Run a sequence of host events. -/
def runSession (σ : SessionState) (es : List InitEvent) : SessionState :=
  es.foldl sessionStep σ

/-- The state before the first activation: canvas mounted, nothing
initialized. -/
def initialSession : SessionState :=
  { hasCanvas := true, isInitializing := false, hasCameraKit := false,
    hasSession := false, pc := none, bootstraps := 0, acquisitions := 0 }

/-! ## Stream ownership across facing switches (`startCamera` lines 185-197) -/

/-- A primitive media-stream action emitted by `startCamera`: stopping all
tracks of a stream, or issuing a `getUserMedia` acquisition.  Streams are
identified by the index of the execution that acquired them. -/
inductive StreamAct
  | stopTracks (id : ℕ)
  | acquire (id : ℕ)
  deriving DecidableEq, Repr

/-- The stream actions of one `startCamera` execution (App.tsx 185-197,
part_000 161-175): first stop every track of the current stream if one is
bound, then issue the new `getUserMedia` acquisition. -/
def startCameraActs (cur : Option ℕ) (new : ℕ) : List StreamAct :=
  (match cur with
   | some s => [StreamAct.stopTracks s]
   | none => []) ++ [StreamAct.acquire new]

/-- The action trace of the initial `startCamera` followed by `n` facing-mode
switches, each re-running `startCamera` with the previously acquired stream
still bound. -/
def switchTrace : ℕ → List StreamAct
  | 0 => startCameraActs none 0
  | n + 1 => switchTrace n ++ startCameraActs (some n) (n + 1)

/-- Effect of one stream action on the multiset of active (acquired and not
yet stopped) streams. -/
def applyAct (active : List ℕ) : StreamAct → List ℕ
  | StreamAct.acquire i => i :: active
  | StreamAct.stopTracks i => active.erase i

/-- The streams still active after a trace of stream actions. -/
def activeStreams (tr : List StreamAct) : List ℕ :=
  tr.foldl applyAct []

/-! ## Lens application (CameraKitContext `applyLens`, part_000 `applyLensData`) -/

/-- The session/engine presence and the fetch counter observed by
`applyLens` (CameraKitContext.tsx lines 237-246). -/
structure LensSessionState where
  hasSession : Bool
  hasCameraKit : Bool
  appliedLens : Option String
  lensFetches : ℕ
  deriving DecidableEq, Repr

/-- CameraKitContext's `applyLens` (lines 237-246): return if session or
engine handle is missing, else always issue one `lensRepository.loadLens`
network fetch and, when it succeeds, apply the lens; a failure is only
logged.  There is no last-applied marker in the code. -/
def applyLens (loadOk : Bool) (σ : LensSessionState) (lensId : String) :
    LensSessionState :=
  if ¬ (σ.hasSession ∧ σ.hasCameraKit) then σ
  else if loadOk then
    { σ with lensFetches := σ.lensFetches + 1, appliedLens := some lensId }
  else
    { σ with lensFetches := σ.lensFetches + 1 }

/-- The lens backend as seen by one `applyLensData` attempt: whether the
direct `loadLens(id, groupId)` succeeds, and the ids present in the lens
group. -/
structure LensRepo where
  directLoadOk : Bool
  groupIds : List String
  deriving DecidableEq, Repr

/-- Observable outcome of one lens-apply attempt: the lens applied (if any),
how many direct and whole-group fetches were issued, whether a failure was
logged, whether an error escaped the operation, and whether the session is
still streaming afterwards. -/
structure ApplyLensRun where
  applied : Option String
  directFetches : ℕ
  groupFetches : ℕ
  errorLogged : Bool
  errorPropagated : Bool
  sessionStreaming : Bool
  deriving DecidableEq, Repr

/-- part_000's `applyLensData` (lines 375-396): guard on session/engine
presence, one direct `loadLens(id, groupId)` inside try, apply on success;
the catch block only logs.  No group load is ever issued and no marker is
kept; the session is left as it was. -/
def applyLensData (repo : LensRepo) (hasSession hasKit streaming : Bool)
    (lensId : String) : ApplyLensRun :=
  if ¬ (hasSession ∧ hasKit) then
    { applied := none, directFetches := 0, groupFetches := 0,
      errorLogged := false, errorPropagated := false, sessionStreaming := streaming }
  else if repo.directLoadOk then
    { applied := some lensId, directFetches := 1, groupFetches := 0,
      errorLogged := false, errorPropagated := false, sessionStreaming := streaming }
  else
    { applied := none, directFetches := 1, groupFetches := 0,
      errorLogged := true, errorPropagated := false, sessionStreaming := streaming }

/-- The fallback protocol exactly as the specification words it, for
comparison with `applyLensData`: direct load by (id, groupId); on failure
load the entire group and linear-search for the id; on failure of both leave
the session running without the effect. -/
def applyLensSpecProtocol (repo : LensRepo) (streaming : Bool)
    (lensId : String) : ApplyLensRun :=
  if repo.directLoadOk then
    { applied := some lensId, directFetches := 1, groupFetches := 0,
      errorLogged := false, errorPropagated := false, sessionStreaming := streaming }
  else if lensId ∈ repo.groupIds then
    { applied := some lensId, directFetches := 1, groupFetches := 1,
      errorLogged := false, errorPropagated := false, sessionStreaming := streaming }
  else
    { applied := none, directFetches := 1, groupFetches := 1,
      errorLogged := true, errorPropagated := false, sessionStreaming := streaming }

/-! ## Recording pipeline (CameraKitContext `startRecording` / `stopRecording`,
part_000 `toggleRecording`) -/

/-- The codec negotiation of part_000's `toggleRecording` (lines 491-496):
start from `{ mimeType: 'video/webm' }`, override with `video/mp4` when
supported, else with `video/webm;codecs=vp9` when supported. -/
def recordingOptions (isTypeSupported : String → Bool) : String :=
  let base := "video/webm"
  if isTypeSupported "video/mp4" then "video/mp4"
  else if isTypeSupported "video/webm;codecs=vp9" then "video/webm;codecs=vp9"
  else base

/-- The mime type handed to the `MediaRecorder` constructor: the code always
passes an options object carrying an explicit `mimeType`. -/
def recorderMimeArg (isTypeSupported : String → Bool) : Option String :=
  some (recordingOptions isTypeSupported)

/-- First-supported-wins selection over an ordered preference list with a
final default, the shape the spec describes the negotiation with. -/
def selectFirstSupported (isTypeSupported : String → Bool) :
    List String → String → String
  | [], base => base
  | m :: ms, base =>
    if isTypeSupported m then m else selectFirstSupported isTypeSupported ms base

/-- Outcome of the recording start: either the recorder started with the
negotiated mime type, or the constructor threw and the catch block set the
UI error message (part_000 lines 498-533). -/
inductive RecorderOutcome
  | started (mime : String)
  | errorSet (msg : String)
  deriving DecidableEq, Repr

/-- The construction attempt of part_000's `toggleRecording` start branch:
negotiate the mime type, construct the recorder inside try; a throw is caught
and surfaced as the UI error `"Error al iniciar grabación"`. -/
def toggleRecordingStart (isTypeSupported : String → Bool)
    (constructOk : String → Bool) : RecorderOutcome :=
  let mime := recordingOptions isTypeSupported
  if constructOk mime then RecorderOutcome.started mime
  else RecorderOutcome.errorSet "Error al iniciar grabación"

/-- State of a constructed `MediaRecorder`. -/
inductive RecorderState
  | inactive
  | recording
  deriving DecidableEq, Repr

/-- A constructed recorder, identified by construction order. -/
structure Recorder where
  id : ℕ
  state : RecorderState
  deriving DecidableEq, Repr

/-- The capture state of CameraKitContext: the canvas, every recorder
constructed so far (a started `MediaRecorder` keeps recording even when the
ref is overwritten), the `mediaRecorderRef` (index of the current recorder),
the accumulated chunk sizes, and the `isRecording` UI flag. -/
structure CaptureState where
  hasCanvas : Bool
  recorders : List Recorder
  currentIdx : Option ℕ
  chunks : List ℕ
  isRecording : Bool
  deriving DecidableEq, Repr

/-- CameraKitContext's `startRecording` (lines 259-304): return only when no
canvas is mounted; otherwise construct and start a fresh recorder, clear the
chunk buffer, point `mediaRecorderRef` at it and raise `isRecording`.  There
is no guard against already being in the Recording state. -/
def startRecording (σ : CaptureState) : CaptureState :=
  if ¬ σ.hasCanvas then σ
  else
    { σ with
      recorders := σ.recorders ++ [⟨σ.recorders.length, RecorderState.recording⟩],
      currentIdx := some σ.recorders.length,
      chunks := [],
      isRecording := true }

/-- CameraKitContext's `stopRecording` (lines 314-320): signal the current
recorder only when its state is `'recording'`, then lower `isRecording`. -/
def stopRecording (σ : CaptureState) : CaptureState :=
  let σ1 :=
    match σ.currentIdx with
    | none => σ
    | some i =>
      match σ.recorders[i]? with
      | some r =>
        if r.state = RecorderState.recording then
          { σ with recorders := σ.recorders.set i ⟨r.id, RecorderState.inactive⟩ }
        else σ
      | none => σ
  { σ1 with isRecording := false }

/-- The record button of CameraKitContext (line 422):
`onClick = isRecording ? stopRecording : startRecording`. -/
def recordButtonPress (σ : CaptureState) : CaptureState :=
  if σ.isRecording then stopRecording σ else startRecording σ

/-- How many constructed recorders are currently in the `'recording'`
state. -/
def recordingCount (σ : CaptureState) : ℕ :=
  (σ.recorders.filter (fun r => r.state == RecorderState.recording)).length

/-- The capture state with a mounted canvas and nothing recorded yet. -/
def recIdle : CaptureState :=
  { hasCanvas := true, recorders := [], currentIdx := none, chunks := [],
    isRecording := false }

/-- The capture state after `n` presses of the record button. -/
def pressRun (σ : CaptureState) : ℕ → CaptureState
  | 0 => σ
  | n + 1 => recordButtonPress (pressRun σ n)

/-! ## Persistence (CameraKitContext `saveToDevice`, part_000 `onstop`) -/

/-- A persistence interaction: a save-with-picker attempt, a triggered direct
download, or a user notification. -/
inductive PersistAction
  | pickerAttempt
  | directDownload (filename : String)
  | notify (msg : String)
  deriving DecidableEq, Repr

/-- CameraKitContext's `saveToDevice` (lines 322-327): create an anchor for
the blob URL and click it — an unconditional direct download, with no picker
interaction and no failure handling. -/
def saveToDevice (filename : String) : List PersistAction :=
  [PersistAction.directDownload filename]

/-- Whether a mime string includes `"mp4"`, as the `includes` test on
`options.mimeType` does in the `onstop` handler. -/
def mimeIncludesMp4 (mime : String) : Bool :=
  (mime.splitOn "mp4").length ≥ 2

/-- A finalized capture artifact: total payload size (the blob assembled from
the accumulated chunks), its mime type and suggested filename. -/
structure Artifact where
  payloadSize : ℕ
  mimeType : String
  filename : String
  deriving DecidableEq, Repr

/-- The `onstop` finalizer of part_000's `toggleRecording` (lines 506-519):
assemble the accumulated chunks into one blob, pick the file extension from
the negotiated mime type, and trigger a direct download of the artifact. -/
def onStopFinalize (chunks : List ℕ) (mime : String) : Artifact × List PersistAction :=
  let ext := if mimeIncludesMp4 mime then "mp4" else "webm"
  let filename := "El Jardin del Eden." ++ ext
  let artifact : Artifact := ⟨chunks.sum, mime, filename⟩
  (artifact, [PersistAction.directDownload filename])

/-! ## Theorems -/

/-- C8: for every particle with life ratio r = life / maxLife in [0, 1), the
opacity computed by the tick is piecewise linear — r × 10 when r < 0.1,
exactly 1 for 0.1 ≤ r ≤ 0.9, and (1 − r) × 10 when r > 0.9. -/
theorem C8_opacity_piecewise (r : ℚ) (h0 : 0 ≤ r) (h1 : r < 1) :
    (r < 1/10 → opacityEnvelope r = r * 10) ∧
    (1/10 ≤ r → r ≤ 9/10 → opacityEnvelope r = 1) ∧
    (9/10 < r → opacityEnvelope r = (1 - r) * 10) := by
  refine ⟨fun h => ?_, fun h h2 => ?_, fun h => ?_⟩ <;>
    simp only [opacityEnvelope] <;> split_ifs <;> first | rfl | linarith

/-- Witness for C8 at r = 1/2: the hold-at-1 segment. -/
theorem C8_opacity_piecewise_witness :
    opacityEnvelope (1/2) = 1 :=
  (C8_opacity_piecewise (1/2) (by norm_num) (by norm_num)).2.1
    (by norm_num) (by norm_num)

/-- C4: the claim (and the code's own comment at CameraKitContext.tsx line
234, "applyLens handles deduping") says re-applying the same lens id is a
no-op performing no network fetch; the code has no last-applied marker and
issues a `loadLens` fetch on every call — two identical consecutive applies
perform two fetches. -/
theorem C4_applyLens_refetches :
    (applyLens true (applyLens true
      { hasSession := true, hasCameraKit := true, appliedLens := none,
        lensFetches := 0 } "lens-A") "lens-A").lensFetches = 2 := by
  decide

/-- C9 counterexample: at a concrete finalized artifact, the persistence path
performs zero save-with-picker attempts — its very first action is already the
direct download — refuting the claim that a picker interaction is attempted
first and the download is only a fallback. -/
theorem C9_counterexample :
    (saveToDevice "bcast_1_recording.webm").count PersistAction.pickerAttempt = 0 ∧
    (saveToDevice "bcast_1_recording.webm").head? =
      some (PersistAction.directDownload "bcast_1_recording.webm") := by
  exact ⟨by decide, rfl⟩

/-- C9 (amended): for every finalized capture artifact, persistence
unconditionally triggers a single direct download of the assembled artifact
(whose payload size is the sum of the accumulated chunk sizes); no
save-with-picker interaction and no failure notification exist. -/
theorem C9_persistence_direct_download (filename mime : String) (chunks : List ℕ) :
    saveToDevice filename = [PersistAction.directDownload filename] ∧
    (saveToDevice filename).count PersistAction.pickerAttempt = 0 ∧
    (onStopFinalize chunks mime).2 =
      [PersistAction.directDownload (onStopFinalize chunks mime).1.filename] ∧
    (onStopFinalize chunks mime).1.payloadSize = chunks.sum := by
  refine ⟨rfl, ?_, rfl, rfl⟩
  simp [saveToDevice, List.count_cons, List.count_nil]

/-- C3 counterexample: when the platform reports every format unsupported, the
recorder is still constructed with an explicit `{ mimeType: 'video/webm' }`
argument, not with no format as the claim states. -/
theorem C3_counterexample :
    recorderMimeArg (fun _ => false) = some "video/webm" ∧
    recorderMimeArg (fun _ => false) ≠ (none : Option String) :=
  ⟨rfl, by decide⟩

/-- C3 (amended): the negotiation selects the first supported option of the
ordered preference list [video/mp4, video/webm;codecs=vp9] and otherwise falls
back to the explicit base format video/webm without a support check; a
constructor throw is caught and surfaced as the UI error message, and a
successful construction starts the recorder with the negotiated format. -/
theorem C3_codec_negotiation (isTypeSupported constructOk : String → Bool) :
    recordingOptions isTypeSupported =
      selectFirstSupported isTypeSupported
        ["video/mp4", "video/webm;codecs=vp9"] "video/webm" ∧
    (constructOk (recordingOptions isTypeSupported) = false →
      toggleRecordingStart isTypeSupported constructOk =
        RecorderOutcome.errorSet "Error al iniciar grabación") ∧
    (constructOk (recordingOptions isTypeSupported) = true →
      toggleRecordingStart isTypeSupported constructOk =
        RecorderOutcome.started (recordingOptions isTypeSupported)) := by
  refine ⟨rfl, fun h => ?_, fun h => ?_⟩ <;>
    simp [toggleRecordingStart, h]

/-- Witness for C3: only vp9 supported — the pipeline selects vp9 (the
spec's "[A, B, C] where only B is supported" scenario) and a successful
construction starts with it. -/
theorem C3_codec_negotiation_witness :
    recordingOptions (fun m => m == "video/webm;codecs=vp9") =
      selectFirstSupported (fun m => m == "video/webm;codecs=vp9")
        ["video/mp4", "video/webm;codecs=vp9"] "video/webm" ∧
    toggleRecordingStart (fun m => m == "video/webm;codecs=vp9") (fun _ => true) =
      RecorderOutcome.started
        (recordingOptions (fun m => m == "video/webm;codecs=vp9")) :=
  ⟨(C3_codec_negotiation (fun m => m == "video/webm;codecs=vp9") (fun _ => true)).1,
   (C3_codec_negotiation (fun m => m == "video/webm;codecs=vp9") (fun _ => true)).2.2 rfl⟩

/-- C5 counterexample: with a failing direct load and the requested lens
present in the group, `applyLensData` issues zero group fetches and applies
nothing, while the claimed protocol would issue a group load and apply the
lens found by the linear search. -/
theorem C5_counterexample :
    applyLensData ⟨false, ["lens-A"]⟩ true true true "lens-A" ≠
      applyLensSpecProtocol ⟨false, ["lens-A"]⟩ true "lens-A" ∧
    (applyLensData ⟨false, ["lens-A"]⟩ true true true "lens-A").groupFetches = 0 ∧
    (applyLensSpecProtocol ⟨false, ["lens-A"]⟩ true "lens-A").applied =
      some "lens-A" := by
  decide

/-- C5 (amended): every lens-apply attempt performs only the direct load by
(id, groupId) — no group-load fallback and no last-applied marker exist; on
failure the error is logged and absorbed, and in every case the session is
left running exactly as before with no error propagated. -/
theorem C5_lens_failure_absorbed (repo : LensRepo) (streaming : Bool)
    (lensId : String) :
    (applyLensData repo true true streaming lensId).groupFetches = 0 ∧
    (applyLensData repo true true streaming lensId).errorPropagated = false ∧
    (applyLensData repo true true streaming lensId).sessionStreaming = streaming ∧
    (repo.directLoadOk = false →
      (applyLensData repo true true streaming lensId).applied = none ∧
      (applyLensData repo true true streaming lensId).errorLogged = true) ∧
    (repo.directLoadOk = true →
      (applyLensData repo true true streaming lensId).applied = some lensId) := by
  cases h : repo.directLoadOk <;> simp [applyLensData, h]

/-- Witness for C5: a failing direct load with an empty group — no group
fetch, no applied lens, failure logged. -/
theorem C5_lens_failure_absorbed_witness :
    (applyLensData ⟨false, []⟩ true true true "L").groupFetches = 0 ∧
    (applyLensData ⟨false, []⟩ true true true "L").applied = none ∧
    (applyLensData ⟨false, []⟩ true true true "L").errorLogged = true :=
  ⟨(C5_lens_failure_absorbed ⟨false, []⟩ true "L").1,
   ((C5_lens_failure_absorbed ⟨false, []⟩ true "L").2.2.2.1 rfl).1,
   ((C5_lens_failure_absorbed ⟨false, []⟩ true "L").2.2.2.1 rfl).2⟩

/-- C7: after every tick of part_000's `animateComposite` particle update,
0 ≤ life < maxLife; the particle is recycled exactly when the updated life
reaches maxLife or the updated y exceeds the visible height by the 50px
margin; immediately after recycling life = 0 and the particle sits at
y = −50, outside the previously visible bounds. -/
theorem C7_particle_life_recycle (width height windX windY sinVal : ℚ)
    (rnd : RandDraw) (p : Particle) (hmax : 0 < p.maxLife) (hlife : 0 ≤ p.life) :
    (0 ≤ (animateCompositeTick width height windX windY sinVal rnd p).life ∧
      (animateCompositeTick width height windX windY sinVal rnd p).life <
        (animateCompositeTick width height windX windY sinVal rnd p).maxLife) ∧
    ((p.y + p.speed + 3/10 > height + 50 ∨ p.life + 2/125 ≥ p.maxLife) →
      (animateCompositeTick width height windX windY sinVal rnd p).life = 0 ∧
      (animateCompositeTick width height windX windY sinVal rnd p).y = -50 ∧
      (animateCompositeTick width height windX windY sinVal rnd p).y < 0) ∧
    (¬ (p.y + p.speed + 3/10 > height + 50 ∨ p.life + 2/125 ≥ p.maxLife) →
      (animateCompositeTick width height windX windY sinVal rnd p).life =
        p.life + 2/125 ∧
      (animateCompositeTick width height windX windY sinVal rnd p).y =
        p.y + p.speed + 3/10) := by
  simp only [animateCompositeTick]
  split_ifs with hc
  · refine ⟨⟨le_refl 0, hmax⟩, fun _ => ⟨rfl, rfl, by norm_num⟩, fun h => absurd hc h⟩
  · push_neg at hc
    exact ⟨⟨by linarith, by linarith [hc.2]⟩, fun h => absurd h (by push_neg; exact hc),
      fun _ => ⟨rfl, rfl⟩⟩

/-- A concrete particle used by witnesses. -/
def testParticle : Particle :=
  { x := 0, y := 0, z := 0, speed := 1, rotation := 0, rotationSpeed := 0,
    rotationX := 0, rotationY := 0, rotationSpeedX := 0, rotationSpeedY := 0,
    emoji := "✨", size := 20, opacity := 0, life := 0, maxLife := 5,
    windOffsetX := 0, windOffsetY := 0 }

/-- A concrete recycle random draw used by witnesses. -/
def testDraw : RandDraw := ⟨0, 0, 0, 0, 0⟩

/-- Witness for C7 at a concrete particle, tick inputs and random draw. -/
theorem C7_particle_life_recycle_witness :
    (0 ≤ (animateCompositeTick 100 200 0 0 0 testDraw testParticle).life ∧
      (animateCompositeTick 100 200 0 0 0 testDraw testParticle).life <
        (animateCompositeTick 100 200 0 0 0 testDraw testParticle).maxLife) ∧
    ((testParticle.y + testParticle.speed + 3/10 > 200 + 50 ∨
        testParticle.life + 2/125 ≥ testParticle.maxLife) →
      (animateCompositeTick 100 200 0 0 0 testDraw testParticle).life = 0 ∧
      (animateCompositeTick 100 200 0 0 0 testDraw testParticle).y = -50 ∧
      (animateCompositeTick 100 200 0 0 0 testDraw testParticle).y < 0) ∧
    (¬ (testParticle.y + testParticle.speed + 3/10 > 200 + 50 ∨
        testParticle.life + 2/125 ≥ testParticle.maxLife) →
      (animateCompositeTick 100 200 0 0 0 testDraw testParticle).life =
        testParticle.life + 2/125 ∧
      (animateCompositeTick 100 200 0 0 0 testDraw testParticle).y =
        testParticle.y + testParticle.speed + 3/10) :=
  C7_particle_life_recycle 100 200 0 0 0 testDraw testParticle
    (by norm_num [testParticle]) (by norm_num [testParticle])

/-- The particle pool produced by `initializeParticles` has one particle per
unit of `count × densityMultiplier`, independent of the random draws. -/
theorem length_initializeParticles (width height : ℚ) (guest : Guest)
    (isLush : Bool) (rand : ℕ → InitRand) :
    (initializeParticles width height guest isLush rand).length =
      (guest.particles.map
        (fun c => c.count * (if isLush then 4 else 2))).sum := by
  simp only [initializeParticles]
  induction guest.particles with
  | nil => rfl
  | cons c cs ih =>
    simp only [List.foldr_cons, List.length_append, List.length_map,
      List.length_range, List.map_cons, List.sum_cons, ih]

/-- One `animate` iteration maps the pool in place, so its size is the size
of the (possibly just initialized) pool. -/
theorem length_animateFrame (width height : ℚ) (guest : Option Guest)
    (isLanding : Bool) (env : FrameEnv) (pool : List Particle) :
    (animateFrame width height guest isLanding env pool).length =
      if pool.length = 0 then
        (initializeParticles width height (guest.getD FALLBACK_GUEST) isLanding
          env.initRand).length
      else pool.length := by
  simp only [animateFrame]
  split_ifs with h <;> simp

/-- C10: with no guest active, the draw loop fills the empty pool from
`FALLBACK_GUEST` on its first iteration, so after every iteration from the
first on the particle set drawn over the frame is non-empty. -/
theorem C10_fallback_pool (width height : ℚ) (isLanding : Bool)
    (envs : ℕ → FrameEnv) (n : ℕ) (hn : 1 ≤ n) :
    0 < (animateFrames width height none isLanding envs n).length := by
  induction n with
  | zero => omega
  | succ m ih =>
    have hstep : ∀ pool : List Particle, ∀ env,
        0 < (animateFrame width height none isLanding env pool).length := by
      intro pool env
      rw [length_animateFrame]
      split_ifs with h
      · rw [length_initializeParticles]
        cases isLanding <;> decide
      · omega
    exact hstep _ _

/-- A concrete per-particle random source used by witnesses. -/
def testInitRand : InitRand := ⟨0, 0, 0, 0, 0, 0, 0, 0, 0, 0, 0, 0⟩

/-- A concrete frame environment used by witnesses. -/
def testFrameEnv : FrameEnv :=
  { windX := 0, sinVal := fun _ => 0, recycleRand := fun _ => 0,
    initRand := fun _ => testInitRand }

/-- Witness for C10 after two iterations with no guest. -/
theorem C10_fallback_pool_witness :
    0 < (animateFrames 100 200 none false (fun _ => testFrameEnv) 2).length :=
  C10_fallback_pool 100 200 false (fun _ => testFrameEnv) 2 (by norm_num)

/-- C6 counterexample: from the idle state, pressing start twice is not a
no-op — the second `startRecording` constructs and starts a second recorder
while the first is still recording, so two recorders are in the `'recording'`
state at once. -/
theorem C6_counterexample :
    startRecording (startRecording recIdle) ≠ startRecording recIdle ∧
    recordingCount (startRecording (startRecording recIdle)) = 2 := by
  decide

/-- Setting the element just past a list appends in place. -/
theorem set_concat_length {α : Type} (l : List α) (a b : α) :
    (l ++ [a]).set l.length b = l ++ [b] := by
  induction l with
  | nil => rfl
  | cons x xs ih => simp [ih]

/-- Reachability invariant of the capture state under record-button presses:
either idle with every constructed recorder inactive, or recording with
exactly the last constructed recorder active and `mediaRecorderRef` pointing
at it. -/
def CaptureInv (σ : CaptureState) : Prop :=
  σ.hasCanvas = true ∧
  ((σ.isRecording = false ∧ ∀ r ∈ σ.recorders, r.state = RecorderState.inactive) ∨
   (σ.isRecording = true ∧ ∃ pre : List Recorder,
      σ.recorders = pre ++ [⟨pre.length, RecorderState.recording⟩] ∧
      (∀ r ∈ pre, r.state = RecorderState.inactive) ∧
      σ.currentIdx = some pre.length))

/-- The idle capture state satisfies the invariant. -/
theorem captureInv_init : CaptureInv recIdle := by
  refine ⟨rfl, Or.inl ⟨rfl, ?_⟩⟩
  intro r hr
  simp [recIdle] at hr

/-- One record-button press preserves the capture invariant. -/
theorem captureInv_press (σ : CaptureState) (h : CaptureInv σ) :
    CaptureInv (recordButtonPress σ) := by
  obtain ⟨hcanvas, hcase⟩ := h
  rcases hcase with ⟨hrec, hall⟩ | ⟨hrec, pre, hrecs, hpre, hidx⟩
  · have hstart : recordButtonPress σ =
        { σ with
          recorders := σ.recorders ++ [⟨σ.recorders.length, RecorderState.recording⟩]
          currentIdx := some σ.recorders.length
          chunks := []
          isRecording := true } := by
      rw [recordButtonPress, hrec]
      simp [startRecording, hcanvas]
    rw [hstart]
    exact ⟨hcanvas, Or.inr ⟨rfl, σ.recorders, rfl, hall, rfl⟩⟩
  · have hstop : recordButtonPress σ =
        { σ with
          recorders := pre ++ [⟨pre.length, RecorderState.inactive⟩]
          isRecording := false } := by
      rw [recordButtonPress, hrec]
      simp only [if_true, stopRecording, hidx, hrecs, List.getElem?_concat_length]
      simp [set_concat_length]
    rw [hstop]
    refine ⟨hcanvas, Or.inl ⟨rfl, ?_⟩⟩
    intro r hr
    rcases List.mem_append.mp hr with h1 | h1
    · exact hpre r h1
    · simp only [List.mem_singleton] at h1
      rw [h1]

/-- Under the invariant, at most one recorder is recording. -/
theorem recordingCount_of_inv (σ : CaptureState) (h : CaptureInv σ) :
    recordingCount σ ≤ 1 := by
  obtain ⟨-, hcase⟩ := h
  rcases hcase with ⟨-, hall⟩ | ⟨-, pre, hrecs, hpre, -⟩
  · have : σ.recorders.filter (fun r => r.state == RecorderState.recording) = [] := by
      rw [List.filter_eq_nil_iff]
      intro r hr
      simp [hall r hr]
    simp [recordingCount, this]
  · have hfil : pre.filter (fun r => r.state == RecorderState.recording) = [] := by
      rw [List.filter_eq_nil_iff]
      intro r hr
      simp [hpre r hr]
    simp [recordingCount, hrecs, List.filter_append, hfil]

/-- C6 (amended): `stopRecording` while Idle (flag down, every recorder
inactive) is an exact no-op; `startRecording` has no guard of its own —
invoked while Recording it starts a second recorder (see the counterexample) —
but the record button dispatches `stopRecording` whenever `isRecording` is
set, so along every sequence of button presses at most one recorder is in the
`'recording'` state at any time. -/
theorem C6_recording_noops :
    (∀ σ : CaptureState, σ.isRecording = false →
      (∀ r ∈ σ.recorders, r.state = RecorderState.inactive) →
      stopRecording σ = σ) ∧
    (∀ n : ℕ, recordingCount (pressRun recIdle n) ≤ 1) := by
  constructor
  · intro σ hrec hall
    obtain ⟨hasCanvas, recorders, currentIdx, chunks, isRecording⟩ := σ
    simp only [stopRecording]
    cases currentIdx with
    | none =>
      simp only at hrec
      simp [hrec]
    | some i =>
      cases hget : recorders[i]? with
      | none =>
        simp only at hrec
        simp [hget, hrec]
      | some r =>
        have hmem : r ∈ recorders := by
          have := List.getElem?_eq_some_iff.mp hget
          obtain ⟨hlt, hEq⟩ := this
          exact hEq ▸ List.getElem_mem hlt
        have hst := hall r hmem
        simp only at hrec
        simp [hget, hst, hrec]
  · intro n
    have hinv : CaptureInv (pressRun recIdle n) := by
      induction n with
      | zero => exact captureInv_init
      | succ m ih => exact captureInv_press _ ih
    exact recordingCount_of_inv _ hinv

/-- Witness for C6: stop on the concrete idle state is a no-op, and three
button presses keep at most one recorder recording. -/
theorem C6_recording_noops_witness :
    stopRecording recIdle = recIdle ∧ recordingCount (pressRun recIdle 3) ≤ 1 :=
  ⟨C6_recording_noops.1 recIdle rfl (by simp [recIdle]),
   C6_recording_noops.2 3⟩

/-- After the full trace of `n` switches exactly the last acquired stream is
active. -/
theorem activeStreams_switchTrace (n : ℕ) :
    activeStreams (switchTrace n) = [n] := by
  induction n with
  | zero => rfl
  | succ m ih =>
    rw [switchTrace, activeStreams, List.foldl_append]
    rw [activeStreams] at ih
    rw [ih]
    simp [startCameraActs, applyAct]

/-- The trace of `n` switches has `2n + 1` actions. -/
theorem switchTrace_length (n : ℕ) : (switchTrace n).length = 2 * n + 1 := by
  induction n with
  | zero => rfl
  | succ m ih =>
    simp [switchTrace, startCameraActs, ih]
    omega

/-- In the full trace, the acquisition of stream `k + 1` is always preceded
by the stop of stream `k` (full-trace membership version). -/
theorem stop_mem_of_acquire_mem (n k : ℕ)
    (h : StreamAct.acquire (k + 1) ∈ switchTrace n) :
    StreamAct.stopTracks k ∈ switchTrace n := by
  induction n with
  | zero => simp [switchTrace, startCameraActs] at h
  | succ p ih =>
    simp only [switchTrace, startCameraActs, List.nil_append, List.cons_append,
      List.mem_append, List.mem_cons, List.not_mem_nil, or_false] at h ⊢
    rcases h with h1 | h1 | h1
    · exact Or.inl (ih h1)
    · exact absurd h1 (by simp)
    · have hk : k = p := by
        have := StreamAct.acquire.inj h1
        omega
      exact Or.inr (Or.inl (by rw [hk]))

/-- Every prefix of the switch trace has at most one active stream. -/
theorem activeStreams_take_le_one (n m : ℕ) :
    (activeStreams ((switchTrace n).take m)).length ≤ 1 := by
  induction n generalizing m with
  | zero =>
    cases m with
    | zero => simp [activeStreams]
    | succ m' =>
      have hta : (switchTrace 0).take (m' + 1) = [StreamAct.acquire 0] := by
        simp [switchTrace, startCameraActs]
      rw [hta]
      simp [activeStreams, applyAct]
  | succ p ih =>
    rw [switchTrace, List.take_append_eq_append_take]
    rcases le_or_lt m (switchTrace p).length with hm | hm
    · rw [show m - (switchTrace p).length = 0 by omega]
      simp only [List.take_zero, List.append_nil]
      exact ih m
    · rw [List.take_of_length_le (by omega)]
      rw [activeStreams, List.foldl_append]
      have hact : List.foldl applyAct [] (switchTrace p) = [p] :=
        activeStreams_switchTrace p
      rw [hact]
      rcases Nat.exists_eq_add_of_lt hm with ⟨d, hdm⟩
      rw [show m - (switchTrace p).length = d + 1 by omega]
      cases d with
      | zero => simp [startCameraActs, applyAct]
      | succ d' => simp [startCameraActs, applyAct]

/-- Every prefix of the switch trace that contains the acquisition of stream
`k + 1` already contains the stop of stream `k`. -/
theorem stop_before_acquire_take (n m k : ℕ)
    (h : StreamAct.acquire (k + 1) ∈ (switchTrace n).take m) :
    StreamAct.stopTracks k ∈ (switchTrace n).take m := by
  induction n generalizing m with
  | zero =>
    exfalso
    have h' := List.take_subset m (switchTrace 0) h
    simp [switchTrace, startCameraActs] at h'
  | succ p ih =>
    rw [switchTrace, List.take_append_eq_append_take] at h ⊢
    rcases le_or_lt m (switchTrace p).length with hm | hm
    · rw [show m - (switchTrace p).length = 0 by omega] at h ⊢
      simp only [List.take_zero, List.append_nil] at h ⊢
      exact ih m h
    · rw [List.take_of_length_le (by omega)] at h ⊢
      rcases Nat.exists_eq_add_of_lt hm with ⟨d, hdm⟩
      rw [show m - (switchTrace p).length = d + 1 by omega] at h ⊢
      rcases List.mem_append.mp h with h1 | h1
      · exact List.mem_append_left _ (stop_mem_of_acquire_mem p k h1)
      · cases d with
        | zero =>
          exfalso
          simp [startCameraActs] at h1
        | succ d' =>
          apply List.mem_append_right
          have hk : k = p := by
            simp only [startCameraActs, List.nil_append, List.cons_append,
              List.take_succ_cons, List.take_nil, List.mem_cons,
              List.not_mem_nil, or_false] at h1
            rcases h1 with h1 | h1
            · exact absurd h1 (by simp)
            · have := StreamAct.acquire.inj h1
              omega
          simp [startCameraActs, hk]

/-- C2: across any sequence of `switchFacing`-driven re-initializations, at
most one media stream is active at any instant (every prefix of the emitted
stop/acquire trace leaves at most one stream acquired-but-not-stopped), and
the previous stream's tracks are stopped strictly before the next acquisition
is issued (every prefix containing `acquire (k+1)` already contains
`stopTracks k`). -/
theorem C2_single_active_stream (n m : ℕ) :
    (activeStreams ((switchTrace n).take m)).length ≤ 1 ∧
    (∀ k : ℕ, StreamAct.acquire (k + 1) ∈ (switchTrace n).take m →
      StreamAct.stopTracks k ∈ (switchTrace n).take m) :=
  ⟨activeStreams_take_le_one n m,
   fun k h => stop_before_acquire_take n m k h⟩

/-- Witness for C2 at two switches and the prefix of length four, which
contains the second acquisition. -/
theorem C2_single_active_stream_witness :
    (activeStreams ((switchTrace 2).take 4)).length ≤ 1 ∧
    StreamAct.stopTracks 0 ∈ (switchTrace 2).take 4 :=
  ⟨(C2_single_active_stream 2 4).1,
   (C2_single_active_stream 2 4).2 0 (by decide)⟩

/-- A `startCamera` invocation arriving while the single-flight flag is up
leaves the whole state untouched. -/
theorem startCameraInvoke_inflight (σ : SessionState)
    (h : σ.isInitializing = true) : startCameraInvoke σ = σ := by
  simp [startCameraInvoke, h]

/-- Invocations alone (no body step) never change the bootstrap or
acquisition counters. -/
theorem runSession_counters_of_no_step (es : List InitEvent) :
    ∀ σ : SessionState, es.count InitEvent.step = 0 →
      (runSession σ es).bootstraps = σ.bootstraps ∧
      (runSession σ es).acquisitions = σ.acquisitions := by
  induction es with
  | nil => exact fun σ _ => ⟨rfl, rfl⟩
  | cons e rest ih =>
    intro σ hcount
    cases e with
    | invoke =>
      have hc : rest.count InitEvent.step = 0 := by
        simpa [List.count_cons] using hcount
      have hrest := ih (sessionStep σ InitEvent.invoke) hc
      have hb : (sessionStep σ InitEvent.invoke).bootstraps = σ.bootstraps := by
        show (startCameraInvoke σ).bootstraps = σ.bootstraps
        unfold startCameraInvoke
        split_ifs <;> rfl
      have ha : (sessionStep σ InitEvent.invoke).acquisitions = σ.acquisitions := by
        show (startCameraInvoke σ).acquisitions = σ.acquisitions
        unfold startCameraInvoke
        split_ifs <;> rfl
      rw [runSession, List.foldl_cons]
      exact ⟨hrest.1.trans hb, hrest.2.trans ha⟩
    | step => simp [List.count_cons] at hcount

/-- The in-flight invariant of the `startCamera` body at await point `k`:
the flag is up, the body is at pc `k`, the engine handle is cached exactly
after the bootstrap segment, and the counters record exactly the segments
already executed. -/
def inFlight (σ : SessionState) (k : ℕ) : Prop :=
  σ.pc = some k ∧ σ.isInitializing = true ∧
  σ.hasCameraKit = decide (1 ≤ k) ∧
  σ.bootstraps = (if 1 ≤ k then 1 else 0) ∧
  σ.acquisitions = (if 3 ≤ k then 1 else 0)

/-- Running any interleaving that completes the in-flight body (exactly its
remaining await segments, with arbitrarily many re-entrant invocations mixed
in) ends with exactly one bootstrap and one acquisition. -/
theorem runSession_inflight (es : List InitEvent) :
    ∀ (σ : SessionState) (k : ℕ), k < 4 → inFlight σ k →
      es.count InitEvent.step = 4 - k →
      (runSession σ es).bootstraps = 1 ∧ (runSession σ es).acquisitions = 1 := by
  induction es with
  | nil =>
    intro σ k hk _ hcount
    simp only [List.count_nil] at hcount
    omega
  | cons e rest ih =>
    intro σ k hk hσ hcount
    cases e with
    | invoke =>
      have hnoop : sessionStep σ InitEvent.invoke = σ :=
        startCameraInvoke_inflight σ hσ.2.1
      rw [runSession, List.foldl_cons, hnoop]
      have hc : rest.count InitEvent.step = 4 - k := by
        simpa [List.count_cons] using hcount
      exact ih σ k hk hσ hc
    | step =>
      obtain ⟨hcv, ii, ck, hs, pc, b, a⟩ := σ
      obtain ⟨hpc, hii, hck, hb, ha⟩ := hσ
      simp only at hpc hii hck hb ha
      subst hpc hii hck hb ha
      have hc : rest.count InitEvent.step = 3 - k := by
        simp only [List.count_cons] at hcount
        simp at hcount
        omega
      rw [runSession, List.foldl_cons]
      interval_cases k
      · refine ih _ 1 (by omega) ?_ (by simpa using hc)
        unfold inFlight
        simp [sessionStep, startCameraStep]
      · refine ih _ 2 (by omega) ?_ (by simpa using hc)
        unfold inFlight
        simp [sessionStep, startCameraStep]
      · refine ih _ 3 (by omega) ?_ (by simpa using hc)
        unfold inFlight
        simp [sessionStep, startCameraStep]
      · have hc0 : rest.count InitEvent.step = 0 := by omega
        constructor
        · show (runSession _ rest).bootstraps = 1
          rw [(runSession_counters_of_no_step rest _ hc0).1]
          simp [sessionStep, startCameraStep]
        · show (runSession _ rest).acquisitions = 1
          rw [(runSession_counters_of_no_step rest _ hc0).2]
          simp [sessionStep, startCameraStep]

/-- C1: a `startCamera` call while an initialization is in flight returns
immediately without effect, and any overlapping interleaving of invocations
with one completed initialization performs exactly one engine bootstrap and
exactly one `getUserMedia` stream acquisition. -/
theorem C1_single_flight (σ : SessionState) (hσ : σ.isInitializing = true)
    (es : List InitEvent) (hsteps : es.count InitEvent.step = 4) :
    startCameraInvoke σ = σ ∧
    (runSession (startCameraInvoke initialSession) es).bootstraps = 1 ∧
    (runSession (startCameraInvoke initialSession) es).acquisitions = 1 := by
  have hif : inFlight (startCameraInvoke initialSession) 0 := by
    unfold inFlight
    refine ⟨rfl, rfl, by decide, by decide, by decide⟩
  have hmain := runSession_inflight es (startCameraInvoke initialSession) 0
    (by omega) hif (by simpa using hsteps)
  exact ⟨startCameraInvoke_inflight σ hσ, hmain.1, hmain.2⟩

/-- Witness for C1: the in-flight state after the first invocation, with two
re-entrant invocations interleaved among the four body segments. -/
theorem C1_single_flight_witness :
    startCameraInvoke (startCameraInvoke initialSession) =
      startCameraInvoke initialSession ∧
    (runSession (startCameraInvoke initialSession)
      [InitEvent.step, InitEvent.invoke, InitEvent.step, InitEvent.step,
        InitEvent.invoke, InitEvent.step]).bootstraps = 1 ∧
    (runSession (startCameraInvoke initialSession)
      [InitEvent.step, InitEvent.invoke, InitEvent.step, InitEvent.step,
        InitEvent.invoke, InitEvent.step]).acquisitions = 1 :=
  C1_single_flight (startCameraInvoke initialSession) (by decide) _ (by decide)

end CameraKitApp
